import Mathlib

/-!
# Verification of the NOAA hurricanes notebook workflow

Shallow embedding of `src/py/examples/noaa_hurricanes.ipynb`.

The notebook delegates all evaluation to the Earth Engine backend; here the
declarative query pipeline is embedded as executable functions over a local
list of point features standing for the server-held `FeatureCollection`.
The raw dataset (`ee.FeatureCollection('NOAA/NHC/HURDAT2/atlantic')`) is a
parameter `h : List Feature`; every notebook value is a function of it.

* `queryPoints` embeds `hurricanes.filter(ee.Filter.date(ee.Date(year).getRange('year')))`,
  with `yearStartMs` the epoch-millisecond timestamp of `year`-01-01 (UTC,
  Gregorian with leap years), so the date range is `[yearStartMs y, yearStartMs (y+1))`.
* `get_id`, `storm_ids`, `create_line`, `queryLines` embed the id extraction,
  `points.toList(1000).map(get_id).distinct()`, and the per-storm line
  synthesis (`filter`-by-id, `sort('system:time_start')`, `LineString`).
* `EarthEngineLayer`, `ViewState`, `Deck`, `showDeck`, `runNotebook` embed the
  pydeck layer/view construction and the two render cells.
* `sessionInit` embeds the `try: ee.Initialize() except: ee.Authenticate(); ee.Initialize()`
  cell as a function of the outcomes of the external calls, returning the
  trace of calls made and the final outcome.
-/

/-- A point feature of the hurricane dataset: a point geometry (one
coordinate), the `'id'` property (storm id), and the `'system:time_start'`
property in epoch milliseconds. Coordinates are modelled as integer pairs;
no arithmetic is ever performed on them, they are only selected and
reordered. -/
structure Feature where
  coord : Int × Int
  stormId : String
  timeStart : Nat
deriving DecidableEq, Repr

/-- A synthesized line feature: the `LineString` coordinates and the `'id'`
property set by `create_line`. -/
structure LineFeature where
  coords : List (Int × Int)
  stormId : String
deriving DecidableEq, Repr

/-- Gregorian leap-year rule, used by the embedding of `ee.Date`. -/
def isLeapYear (y : Nat) : Bool :=
  (y % 4 == 0 && y % 100 != 0) || y % 400 == 0

/-- Number of days in year `y`. -/
def daysInYear (y : Nat) : Nat :=
  if isLeapYear y then 366 else 365

/-- Days from 1970-01-01 to `y`-01-01 (for `y ≥ 1970`). -/
def daysFromEpochToYear (y : Nat) : Nat :=
  (List.range (y - 1970)).foldl (fun acc i => acc + daysInYear (1970 + i)) 0

/-- Epoch milliseconds of `y`-01-01T00:00:00Z: the start of the range
`ee.Date(year).getRange('year')`. -/
def yearStartMs (y : Nat) : Nat :=
  daysFromEpochToYear y * 86400000

/-- `ee.Filter.date(start, stop)`: keeps features whose `system:time_start`
lies in the half-open interval `[start, stop)`. -/
def filterDate (start stop : Nat) (fc : List Feature) : List Feature :=
  fc.filter (fun f => decide (start ≤ f.timeStart) && decide (f.timeStart < stop))

/-- The notebook's `points`: the dataset filtered to the year's date range
(`hurricanes.filter(ee.Filter.date(ee.Date(year).getRange('year')))`),
parametrized by the dataset contents and the year. -/
def queryPoints (h : List Feature) (y : Nat) : List Feature :=
  filterDate (yearStartMs y) (yearStartMs (y + 1)) h

/-- The notebook's `get_id`: `ee.Feature(point).get('id')`. -/
def get_id (point : Feature) : String :=
  point.stormId

/-- `ee.List.distinct()`: removes duplicates, keeping the first occurrence of
each element in order. -/
def eeDistinct : List String → List String
  | [] => []
  | a :: l => a :: (eeDistinct l).filter (fun b => b != a)

/-- The notebook's `storm_ids`: `points.toList(1000).map(get_id).distinct()`.
Note the truncation to the first 1000 features. -/
def storm_ids (h : List Feature) (y : Nat) : List String :=
  eeDistinct (((queryPoints h y).take 1000).map get_id)

/-- The backend sort key relation of `pts.sort('system:time_start')`:
ascending event timestamp. -/
def leTime (a b : Feature) : Prop :=
  a.timeStart ≤ b.timeStart

instance : DecidableRel leTime :=
  fun a b => Nat.decLe a.timeStart b.timeStart

instance : IsTotal Feature leTime :=
  ⟨fun a b => Nat.le_total a.timeStart b.timeStart⟩

instance : IsTrans Feature leTime :=
  ⟨fun _ _ _ => Nat.le_trans⟩

/-- `pts.sort('system:time_start')`: stable sort, ascending by the timestamp
property. -/
def sortByTimeStart (l : List Feature) : List Feature :=
  l.insertionSort leTime

/-- The notebook's `create_line`: filter the year's points to one storm id,
sort them by `system:time_start`, connect their coordinates into a
`LineString`, and set the `'id'` property on the resulting feature.
There is no guard for collections of fewer than two coordinates. -/
def create_line (h : List Feature) (y : Nat) (storm_id : String) : LineFeature :=
  let pts := (queryPoints h y).filter (fun f => f.stormId == storm_id)
  let sorted := sortByTimeStart pts
  { coords := sorted.map (fun f => f.coord), stormId := storm_id }

/-- The notebook's `lines`: `ee.FeatureCollection(storm_ids.map(create_line))`. -/
def queryLines (h : List Feature) (y : Nat) : List LineFeature :=
  (storm_ids h y).map (create_line h y)

/-- The notebook fixes `year = '2017'`; `points` is the 2017-filtered set. -/
def points (h : List Feature) : List Feature :=
  queryPoints h 2017

/-- The notebook's `lines` for `year = '2017'`. -/
def lines (h : List Feature) : List LineFeature :=
  queryLines h 2017

/-- The Earth Engine object wrapped by a layer: either the points
collection or the synthesized lines collection. -/
inductive EEObject
  | pointsFC (fc : List Feature)
  | linesFC (fc : List LineFeature)
deriving DecidableEq, Repr

/-- A styling keyword-argument value passed to `EarthEngineLayer`. -/
inductive PropVal
  | num (x : Rat)
  | color (c : List Nat)
  | boolean (b : Bool)
deriving DecidableEq, Repr

/-- `EarthEngineLayer`: binds a collection reference to rendering options:
the positional `vis_params` dict, the `as_vector` rendering-mode flag
(default false, i.e. raster), the remaining styling keyword arguments, and
the layer id. -/
structure EarthEngineLayer where
  eeObject : EEObject
  vis_params : Option (List (String × String)) := none
  as_vector : Bool := false
  props : List (String × PropVal) := []
  id : String
deriving DecidableEq, Repr

/-- The raster `lines_layer`: `EarthEngineLayer(lines, {'color': 'red'}, id="tracks")`. -/
def lines_layer (h : List Feature) : EarthEngineLayer :=
  { eeObject := .linesFC (lines h)
    vis_params := some [("color", "red")]
    id := "tracks" }

/-- The raster `points_layer`: `EarthEngineLayer(points, {'color': 'black'}, id="points")`. -/
def points_layer (h : List Feature) : EarthEngineLayer :=
  { eeObject := .pointsFC (points h)
    vis_params := some [("color", "black")]
    id := "points" }

/-- The vector `lines_layer` (second binding in the notebook):
`EarthEngineLayer(lines, as_vector=True, get_line_color=[255,0,0], getLineWidth=1000, lineWidthMinPixels=3, id="tracks")`. -/
def lines_layer_vector (h : List Feature) : EarthEngineLayer :=
  { eeObject := .linesFC (lines h)
    as_vector := true
    props := [("get_line_color", .color [255, 0, 0]),
              ("getLineWidth", .num 1000),
              ("lineWidthMinPixels", .num 3)]
    id := "tracks" }

/-- The vector `points_layer` (second binding in the notebook). -/
def points_layer_vector (h : List Feature) : EarthEngineLayer :=
  { eeObject := .pointsFC (points h)
    as_vector := true
    props := [("get_fill_color", .color [0, 0, 0]),
              ("pointRadiusMinPixels", .num 3),
              ("getRadius", .num 100),
              ("getLineColor", .color [255, 255, 255]),
              ("lineWidthMinPixels", .num (1 / 2 : Rat)),
              ("stroked", .boolean true)]
    id := "points" }

/-- `pdk.ViewState(latitude=36, longitude=-53, zoom=3)`. -/
structure ViewState where
  latitude : Int
  longitude : Int
  zoom : Nat
deriving DecidableEq, Repr

/-- `pdk.Deck`: the ordered layer list (order determines paint/z-order),
the initial view state, and the tooltip flag. -/
structure Deck where
  layers : List EarthEngineLayer
  initial_view_state : ViewState
  tooltip : Bool := false
deriving DecidableEq, Repr

/-- The notebook's `view_state` (both render cells use the same one). -/
def view_state : ViewState :=
  { latitude := 36, longitude := -53, zoom := 3 }

/-- The first (raster) `pdk.Deck`: `layers=[points_layer, lines_layer]`. -/
def rasterDeck (h : List Feature) : Deck :=
  { layers := [points_layer h, lines_layer h]
    initial_view_state := view_state }

/-- The second (vector) `pdk.Deck`: `layers=[lines_layer, points_layer]`, `tooltip=True`. -/
def vectorDeck (h : List Feature) : Deck :=
  { layers := [lines_layer_vector h, points_layer_vector h]
    initial_view_state := view_state
    tooltip := true }

/-- `r.show()`: a side-effecting render; its return value carries no
information. -/
def showDeck (_d : Deck) : Unit :=
  ()

/-- The variables bound by the notebook after all cells have run (`r` is
rebound to the vector deck by the second render cell; the results of the
two `r.show()` calls are bound to nothing). -/
structure NotebookVars where
  points : List Feature
  storm_ids : List String
  lines : List LineFeature
  lines_layer : EarthEngineLayer
  points_layer : EarthEngineLayer
  view_state : ViewState
  r : Deck
deriving DecidableEq, Repr

/-- The whole notebook run in order, parametrized by the (arbitrary)
behaviour of the two `r.show()` calls: their results are evaluated and
discarded, exactly as in the source, and the final bound variables are
returned. -/
def runNotebook {α β : Type} (showFn1 : Deck → α) (showFn2 : Deck → β)
    (h : List Feature) : NotebookVars :=
  let r1 := rasterDeck h
  let _ := showFn1 r1
  let r2 := vectorDeck h
  let _ := showFn2 r2
  { points := points h
    storm_ids := storm_ids h 2017
    lines := lines h
    lines_layer := lines_layer_vector h
    points_layer := points_layer_vector h
    view_state := view_state
    r := r2 }

/-- Outcome of an external Earth Engine call: success or a raised exception. -/
inductive Outcome
  | ok
  | err
deriving DecidableEq, BEq, Repr

/-- The two external calls made by the authentication cell. -/
inductive EECall
  | init
  | auth
deriving DecidableEq, BEq, Repr

/-- The authentication cell
`try: ee.Initialize() except Exception: ee.Authenticate(); ee.Initialize()`,
as a function of the outcomes of the first initialization attempt, the
interactive authentication, and the retried initialization. Returns the
trace of external calls actually made, and the overall outcome (an `err`
inside the except block propagates unhandled). -/
def sessionInit (init1 auth1 init2 : Outcome) : List EECall × Outcome :=
  match init1 with
  | .ok => ([.init], .ok)
  | .err =>
    match auth1 with
    | .err => ([.init, .auth], .err)
    | .ok => ([.init, .auth, .init], init2)

/-- The spec's phrase for C5, to be compared with the layer construction
from the source: two layers "differ only in rendering mode" when every
field other than the `as_vector` rendering-mode flag agrees and the flag
itself differs. -/
def differOnlyInRenderingMode (a b : EarthEngineLayer) : Prop :=
  a.eeObject = b.eeObject ∧ a.vis_params = b.vis_params ∧ a.props = b.props
    ∧ a.id = b.id ∧ a.as_vector ≠ b.as_vector

/-- A small concrete dataset: two storms in 2017, one with two points (out
of timestamp order in the collection) and one with a single point.
`yearStartMs 2017 = 1483228800000` and `yearStartMs 2018 = 1514764800000`. -/
def sampleH : List Feature :=
  [ { coord := (1, 2), stormId := "AL012017", timeStart := 1483228800001 },
    { coord := (3, 4), stormId := "AL022017", timeStart := 1490000000000 },
    { coord := (5, 6), stormId := "AL012017", timeStart := 1483228800000 } ]

/-- A concrete dataset of 1001 point features, all inside the 1970 date
range: the first 1000 belong to storm "A", the 1001st to storm "B". -/
def bigH : List Feature :=
  (List.range 1001).map (fun i =>
    { coord := (0, 0), stormId := if i < 1000 then "A" else "B", timeStart := i })

/-- Membership is preserved by `eeDistinct`. -/
theorem mem_eeDistinct (l : List String) (a : String) :
    a ∈ eeDistinct l ↔ a ∈ l := by
  induction l with
  | nil => simp [eeDistinct]
  | cons b l ih =>
    simp only [eeDistinct, List.mem_cons, List.mem_filter, ih, bne_iff_ne, ne_eq]
    by_cases hb : a = b <;> simp [hb]

/-- `eeDistinct` returns a duplicate-free list. -/
theorem eeDistinct_nodup (l : List String) : (eeDistinct l).Nodup := by
  induction l with
  | nil => simp [eeDistinct]
  | cons b l ih =>
    simp only [eeDistinct, List.nodup_cons]
    refine ⟨?_, ih.filter _⟩
    intro hmem
    have h2 := (List.mem_filter.1 hmem).2
    simp at h2

/-- `eeDistinct` never lengthens a list. -/
theorem eeDistinct_length_le (l : List String) : (eeDistinct l).length ≤ l.length := by
  induction l with
  | nil => simp [eeDistinct]
  | cons b l ih =>
    simp only [eeDistinct, List.length_cons]
    exact Nat.succ_le_succ (le_trans (List.length_filter_le _ _) ih)

/-- Counting line features carrying a given id is counting that id among
`storm_ids`, since `create_line` stamps each line with the id it was built
from. -/
theorem countP_queryLines (h : List Feature) (y : Nat) (sid : String) :
    List.countP (fun f => f.stormId == sid) (queryLines h y)
      = List.count sid (storm_ids h y) := by
  unfold queryLines
  rw [List.countP_map]
  rfl

/-- C2: for every dataset and year, the point collection returned by the
Query Builder contains exactly those events of the dataset whose timestamp
falls within the half-open interval
`[yearStartMs y, yearStartMs (y+1))` = `[year-01-01, year+1-01-01)`,
and it is a sublist of the dataset (order and multiplicity preserved). -/
theorem c2_year_filter (h : List Feature) (y : Nat) :
    (∀ f : Feature, f ∈ queryPoints h y ↔
      f ∈ h ∧ yearStartMs y ≤ f.timeStart ∧ f.timeStart < yearStartMs (y + 1))
    ∧ (queryPoints h y).Sublist h := by
  constructor
  · intro f
    simp [queryPoints, filterDate, List.mem_filter, and_assoc]
  · exact List.filter_sublist h

/-- C3: the authentication cell attempts initialization first; the
interactive fallback is invoked exactly once if and only if that attempt
fails; when the fallback completes, initialization is retried exactly once
(two initialization calls in total) and the outcome of that retry is the
outcome of the cell, so a failure of the retried initialization propagates
unhandled; in a pre-authenticated environment the cell is a single
successful initialization with no fallback. -/
theorem c3_session_init (i1 a i2 : Outcome) :
    ((sessionInit i1 a i2).1.count EECall.auth = if i1 = .ok then 0 else 1)
    ∧ (i1 = .ok → (sessionInit i1 a i2).1 = [EECall.init] ∧ (sessionInit i1 a i2).2 = .ok)
    ∧ (i1 = .err → a = .ok →
        (sessionInit i1 a i2).1.count EECall.init = 2 ∧ (sessionInit i1 a i2).2 = i2)
    ∧ (i1 = .err → a = .err → (sessionInit i1 a i2).2 = .err) := by
  cases i1 <;> cases a <;> cases i2 <;> decide

/-- Witness for C3: with the first initialization failing, authentication
succeeding and the retried initialization failing, initialization is called
exactly twice and the failure propagates; in a pre-authenticated run the
fallback is never called. -/
theorem c3_session_init_witness :
    ((sessionInit .err .ok .err).1.count EECall.init = 2
      ∧ (sessionInit .err .ok .err).2 = .err)
    ∧ (sessionInit .ok .ok .ok).1.count EECall.auth = 0 := by
  constructor
  · exact (c3_session_init .err .ok .err).2.2.1 rfl rfl
  · have h0 := (c3_session_init .ok .ok .ok).1
    simpa using h0

/-- C10: the raster render lists the points layer before the lines layer,
the vector render lists the lines layer before the points layer, over the
same two collections, so the layer-list order of the two decks (which
determines paint/z-order) is reversed between the renders. -/
theorem c10_opposite_layer_order (h : List Feature) :
    (rasterDeck h).layers.map (fun l => l.eeObject)
        = [EEObject.pointsFC (points h), EEObject.linesFC (lines h)]
    ∧ (vectorDeck h).layers.map (fun l => l.eeObject)
        = [EEObject.linesFC (lines h), EEObject.pointsFC (points h)]
    ∧ (vectorDeck h).layers.map (fun l => l.eeObject)
        = ((rasterDeck h).layers.map (fun l => l.eeObject)).reverse :=
  ⟨rfl, rfl, rfl⟩

/-- C8: the render/show operation is side-effecting only: its return value
carries no information, and the variables bound after the whole notebook has
run are independent of whatever the two `r.show()` calls return, for any
possible behaviour of `show`. -/
theorem c8_show_result_unconsumed {α β γ δ : Type}
    (s1 : Deck → α) (s2 : Deck → β) (t1 : Deck → γ) (t2 : Deck → δ)
    (h : List Feature) :
    showDeck (rasterDeck h) = () ∧ runNotebook s1 s2 h = runNotebook t1 t2 h :=
  ⟨rfl, rfl⟩

/-- C5 counterexample: the raster lines layer (`{'color': 'red'}` as
`vis_params`, `as_vector` unset) and the vector lines layer differ in more
than the rendering mode — their `vis_params` and styling keyword arguments
differ too — so the two constructions do not "differ only in rendering
mode" as the claim states. -/
theorem c5_counterexample :
    ¬ differOnlyInRenderingMode (lines_layer []) (lines_layer_vector []) := by
  intro hc
  exact absurd hc.2.1 (by decide)

/-- C5 (amended): for each of the two collections, the layer constructed
with `as_vector=True` and the one with it unset reference the same
collection and carry the same layer id, and differ in rendering mode
(`as_vector` false versus true) — but they also differ in their styling
parameters (`vis_params` and the styling keyword arguments). -/
theorem c5_same_collection_mode_differs (h : List Feature) :
    (lines_layer h).eeObject = (lines_layer_vector h).eeObject
    ∧ (points_layer h).eeObject = (points_layer_vector h).eeObject
    ∧ (lines_layer h).id = (lines_layer_vector h).id
    ∧ (points_layer h).id = (points_layer_vector h).id
    ∧ (lines_layer h).as_vector = false ∧ (lines_layer_vector h).as_vector = true
    ∧ (points_layer h).as_vector = false ∧ (points_layer_vector h).as_vector = true
    ∧ (lines_layer h).vis_params ≠ (lines_layer_vector h).vis_params
    ∧ (lines_layer h).props ≠ (lines_layer_vector h).props := by
  refine ⟨rfl, rfl, rfl, rfl, rfl, rfl, rfl, rfl, ?_, ?_⟩
  · exact fun hc => Option.noConfusion hc
  · exact fun hc => List.noConfusion hc

/-- C1 (amended): for every storm id present among the first 1000 features
of the year-filtered point set (i.e. present in `storm_ids`), exactly one
line feature carrying that id is produced, and the vertex order of that
line (`create_line`'s coordinates) equals the ascending order of all of the
id's filtered points by event timestamp: the vertices are the coordinates
of a timestamp-sorted permutation of exactly those points. -/
theorem c1_one_sorted_line_per_storm_id (h : List Feature) (y : Nat) (sid : String)
    (hm : sid ∈ storm_ids h y) :
    List.countP (fun f => f.stormId == sid) (queryLines h y) = 1
    ∧ create_line h y sid ∈ queryLines h y
    ∧ ∃ l : List Feature,
        l.Perm ((queryPoints h y).filter (fun f => f.stormId == sid))
        ∧ l.Sorted leTime
        ∧ (create_line h y sid).coords = l.map (fun f => f.coord) := by
  refine ⟨?_, List.mem_map_of_mem _ hm, ?_⟩
  · rw [countP_queryLines]
    exact List.count_eq_one_of_mem (eeDistinct_nodup _) hm
  · exact ⟨sortByTimeStart ((queryPoints h y).filter (fun f => f.stormId == sid)),
      List.perm_insertionSort _ _, List.sorted_insertionSort _ _, rfl⟩

set_option maxRecDepth 100000 in
/-- C1 counterexample: in `bigH` (1001 points of year 1970, the last one the
only point of storm "B"), storm id "B" is present in the year-filtered point
set, yet the number of line features carrying id "B" is 0, not 1: the claim
as stated fails for ids occurring only beyond the first 1000 points. -/
theorem c1_counterexample :
    "B" ∈ (queryPoints bigH 1970).map get_id
    ∧ List.countP (fun f => f.stormId == "B") (queryLines bigH 1970) ≠ 1 := by
  constructor
  · decide
  · decide

/-- Witness for C1 (amended) at `sampleH`, storm id "AL012017". -/
theorem c1_witness :
    "AL012017" ∈ storm_ids sampleH 2017
    ∧ (List.countP (fun f => f.stormId == "AL012017") (queryLines sampleH 2017) = 1
       ∧ create_line sampleH 2017 "AL012017" ∈ queryLines sampleH 2017
       ∧ ∃ l : List Feature,
           l.Perm ((queryPoints sampleH 2017).filter (fun f => f.stormId == "AL012017"))
           ∧ l.Sorted leTime
           ∧ (create_line sampleH 2017 "AL012017").coords = l.map (fun f => f.coord)) :=
  ⟨by decide, c1_one_sorted_line_per_storm_id sampleH 2017 "AL012017" (by decide)⟩

/-- C4: `storm_ids` is computed from at most the first 1000 features of the
filtered point collection, so a storm id absent from those first 1000
features (even if present beyond them) is not in `storm_ids` and yields no
line feature at all. -/
theorem c4_storm_ids_truncated (h : List Feature) (y : Nat) (sid : String)
    (hm : sid ∉ ((queryPoints h y).take 1000).map get_id) :
    sid ∉ storm_ids h y
    ∧ List.countP (fun f => f.stormId == sid) (queryLines h y) = 0 := by
  have h1 : sid ∉ storm_ids h y := fun hc => hm ((mem_eeDistinct _ _).1 hc)
  refine ⟨h1, ?_⟩
  rw [countP_queryLines]
  exact List.count_eq_zero.2 h1

set_option maxRecDepth 100000 in
/-- Witness for C4: in `bigH` the filtered point set has 1001 features;
storm id "B" occurs only at position 1001, is absent from the first 1000,
and yields no line feature. -/
theorem c4_storm_ids_truncated_witness :
    ("B" ∉ ((queryPoints bigH 1970).take 1000).map get_id
      ∧ (queryPoints bigH 1970).length > 1000)
    ∧ ("B" ∉ storm_ids bigH 1970
      ∧ List.countP (fun f => f.stormId == "B") (queryLines bigH 1970) = 0) :=
  ⟨⟨by decide, by decide⟩, c4_storm_ids_truncated bigH 1970 "B" (by decide)⟩

/-- C7: line synthesis has no special case for storm ids with fewer than
two filtered points: `create_line` is total, the line feature is still
produced (it is in the line collection), and it is degenerate, with as many
vertices as the id has points (fewer than two). -/
theorem c7_degenerate_line (h : List Feature) (y : Nat) (sid : String)
    (hm : sid ∈ storm_ids h y)
    (hlen : ((queryPoints h y).filter (fun f => f.stormId == sid)).length < 2) :
    create_line h y sid ∈ queryLines h y
    ∧ (create_line h y sid).coords.length
        = ((queryPoints h y).filter (fun f => f.stormId == sid)).length
    ∧ (create_line h y sid).coords.length < 2 := by
  have e : (create_line h y sid).coords.length
      = ((queryPoints h y).filter (fun f => f.stormId == sid)).length := by
    show ((sortByTimeStart ((queryPoints h y).filter
      (fun f => f.stormId == sid))).map (fun f => f.coord)).length = _
    rw [List.length_map]
    unfold sortByTimeStart
    rw [List.length_insertionSort]
  exact ⟨List.mem_map_of_mem _ hm, e, e ▸ hlen⟩

/-- Witness for C7: storm "AL022017" of `sampleH` has a single filtered
point and still yields a (single-vertex, zero-segment) line feature. -/
theorem c7_degenerate_line_witness :
    ("AL022017" ∈ storm_ids sampleH 2017
      ∧ ((queryPoints sampleH 2017).filter (fun f => f.stormId == "AL022017")).length < 2)
    ∧ (create_line sampleH 2017 "AL022017" ∈ queryLines sampleH 2017
      ∧ (create_line sampleH 2017 "AL022017").coords.length
          = ((queryPoints sampleH 2017).filter (fun f => f.stormId == "AL022017")).length
      ∧ (create_line sampleH 2017 "AL022017").coords.length < 2) :=
  ⟨⟨by decide, by decide⟩,
    c7_degenerate_line sampleH 2017 "AL022017" (by decide) (by decide)⟩

/-- C9: every synthesized line feature carries an id that occurs among the
ids of the filtered point set, and the feature is exactly the line built by
`create_line` from that id: each line is attributable to exactly one storm
id of the filtered point set. -/
theorem c9_line_id_attribution (h : List Feature) (y : Nat) (f : LineFeature)
    (hf : f ∈ queryLines h y) :
    f.stormId ∈ (queryPoints h y).map get_id
    ∧ f = create_line h y f.stormId := by
  obtain ⟨sid, hsid, rfl⟩ := List.mem_map.1 hf
  have h1 : sid ∈ ((queryPoints h y).take 1000).map get_id :=
    (mem_eeDistinct _ _).1 hsid
  obtain ⟨p, hp, hpe⟩ := List.mem_map.1 h1
  exact ⟨List.mem_map.2 ⟨p, List.mem_of_mem_take hp, hpe⟩, rfl⟩

/-- Witness for C9 at `sampleH`: the line built for "AL012017" is in the
line collection, its id occurs among the filtered points' ids, and it is
the line `create_line` builds from its own id. -/
theorem c9_line_id_attribution_witness :
    create_line sampleH 2017 "AL012017" ∈ queryLines sampleH 2017
    ∧ ((create_line sampleH 2017 "AL012017").stormId
          ∈ (queryPoints sampleH 2017).map get_id
      ∧ create_line sampleH 2017 "AL012017"
          = create_line sampleH 2017 (create_line sampleH 2017 "AL012017").stormId) :=
  ⟨by decide,
    c9_line_id_attribution sampleH 2017 (create_line sampleH 2017 "AL012017") (by decide)⟩

/-- C6: for the notebook's concrete scenario (dataset
'NOAA/NHC/HURDAT2/atlantic', year '2017', dataset contents `h`), the raster
render is a two-layer composite whose layer list — which determines the
paint/z-order — is `[points_layer, lines_layer]`, with the points layer
styled black and the lines layer styled red, over a view centered at
latitude 36, longitude -53 at zoom 3; the number of line features is at
most the number of point features, and (whenever the filtered point set
does not overflow the `toList(1000)` truncation) there is one line per
distinct storm id observed in 2017, in order of first observation. -/
theorem c6_concrete_scenario_2017 (h : List Feature)
    (hle : (points h).length ≤ 1000) :
    (lines h).length ≤ (points h).length
    ∧ (lines h).map (fun f => f.stormId) = eeDistinct ((points h).map get_id)
    ∧ (rasterDeck h).layers = [points_layer h, lines_layer h]
    ∧ (rasterDeck h).layers.length = 2
    ∧ (points_layer h).vis_params = some [("color", "black")]
    ∧ (lines_layer h).vis_params = some [("color", "red")]
    ∧ (rasterDeck h).initial_view_state
        = { latitude := 36, longitude := -53, zoom := 3 } := by
  refine ⟨?_, ?_, rfl, rfl, rfl, rfl, rfl⟩
  · have e1 : (lines h).length = (storm_ids h 2017).length := List.length_map _ _
    have e2 : (storm_ids h 2017).length
        ≤ (((queryPoints h 2017).take 1000).map get_id).length :=
      eeDistinct_length_le _
    rw [e1, List.length_map, List.length_take] at *
    exact le_trans e2 (min_le_right _ _)
  · have e1 : (lines h).map (fun f => f.stormId)
        = (storm_ids h 2017).map (fun s => s) := by
      show ((storm_ids h 2017).map (create_line h 2017)).map (fun f => f.stormId) = _
      rw [List.map_map]
      rfl
    have e2 : (queryPoints h 2017).take 1000 = queryPoints h 2017 :=
      List.take_of_length_le hle
    rw [e1, List.map_id']
    show eeDistinct (((queryPoints h 2017).take 1000).map get_id) = _
    rw [e2]
    rfl

/-- Witness for C6 at `sampleH`: three 2017 points, two storms, two lines. -/
theorem c6_concrete_scenario_2017_witness :
    (points sampleH).length ≤ 1000
    ∧ ((lines sampleH).length ≤ (points sampleH).length
      ∧ (lines sampleH).map (fun f => f.stormId)
          = eeDistinct ((points sampleH).map get_id)
      ∧ (rasterDeck sampleH).layers = [points_layer sampleH, lines_layer sampleH]
      ∧ (rasterDeck sampleH).layers.length = 2
      ∧ (points_layer sampleH).vis_params = some [("color", "black")]
      ∧ (lines_layer sampleH).vis_params = some [("color", "red")]
      ∧ (rasterDeck sampleH).initial_view_state
          = { latitude := 36, longitude := -53, zoom := 3 }) :=
  ⟨by decide, c6_concrete_scenario_2017 sampleH (by decide)⟩
